import Mathlib

/-!
Verification of pkg/imagestream/imagestream.go (openshift image-registry,
image-stream resolution layer).

The Go code is embedded shallowly: every control-plane interaction
(image-stream getter, layers getter, image getter) and every external
parser (reference.Parse, digest.Parse) is represented by an oracle held
in an `Env` record, and the functions of imagestream.go are translated
as pure functions over that environment.  Code of the repository that is
not part of imagestream.go (the cached image-stream getter and the
origin-common util helpers) is modelled from the specification; each
such definition carries a doc comment saying so.
-/

set_option autoImplicit false

/-! ## Error codes (imagestream.go lines 26-32) -/

def ErrImageStreamCode : String := "ImageStream:"

def ErrImageStreamUnknownErrorCode : String := ErrImageStreamCode ++ "Unknown"

def ErrImageStreamNotFoundCode : String := ErrImageStreamCode ++ "NotFound"

def ErrImageStreamImageNotFoundCode : String := ErrImageStreamCode ++ "ImageNotFound"

def ErrImageStreamForbiddenCode : String := ErrImageStreamCode ++ "Forbidden"

/-- Modelled from the spec: the Image-Stream Cache Accessor (file
imagestreamgetter.go, not under src/) classifies control-plane failures
into NotFound / Forbidden / Unknown; these are its NotFound / Forbidden
codes, referred to by `convertImageStreamGetterError` and `Exists`. -/
def ErrImageStreamGetterNotFoundCode : String := "ImageStreamGetter:" ++ "NotFound"

/-- Modelled from the spec: the Forbidden classification code of the
Image-Stream Cache Accessor (not under src/). -/
def ErrImageStreamGetterForbiddenCode : String := "ImageStreamGetter:" ++ "Forbidden"

/-- Errors of the rerrors package: a code plus a formatted message.  The
wrapped underlying error of rerrors.NewError is not represented; the
claims only inspect codes and messages. -/
structure RError where
  code : String
  message : String
deriving DecidableEq

/-! ## Data model (imageapiv1 objects, fields used by imagestream.go) -/

/-- imageapiv1.TagEvent: one entry of a tag's status history. -/
structure TagEvent where
  Created : Nat
  DockerImageReference : String
  Image : String
deriving DecidableEq

/-- imageapiv1.NamedTagEventList: a tag name with its ordered history. -/
structure NamedTagEventList where
  Tag : String
  Items : List TagEvent
deriving DecidableEq

/-- imageapiv1.TagImportPolicy (the Insecure flag is the only field used). -/
structure TagImportPolicy where
  Insecure : Bool
deriving DecidableEq

/-- imageapiv1.TagReference: a spec tag with its import policy. -/
structure TagReference where
  Name : String
  ImportPolicy : TagImportPolicy
deriving DecidableEq

/-- imageapiv1.ImageStreamSpec (only the Tags field is used). -/
structure ImageStreamSpec where
  Tags : List TagReference
deriving DecidableEq

/-- imageapiv1.ImageStreamStatus (only the Tags field is used). -/
structure ImageStreamStatus where
  Tags : List NamedTagEventList
deriving DecidableEq

/-- imageapiv1.ImageStream, restricted to the fields imagestream.go reads.
Annotations is an association list standing for the Go string map. -/
structure ImageStream where
  Name : String
  Annotations : List (String × String)
  Spec : ImageStreamSpec
  Status : ImageStreamStatus
deriving DecidableEq

/-- imageapiv1.Image, restricted to a representative set of fields; only
DockerImageReference is ever rewritten by imagestream.go, the other
fields witness the frame condition. -/
structure Image where
  Name : String
  DockerImageReference : String
  DockerImageManifestMediaType : String
  DockerImageLayers : List String
  DockerImageMetadata : String
deriving DecidableEq

/-- imageapiv1.ImageBlobReferences (only the Manifests field is used):
the member manifest digests of a manifest list. -/
structure ImageBlobReferences where
  Manifests : List String
deriving DecidableEq

/-- imageapiv1.ImageStreamLayers.  The Go `Images` map from digest to
ImageBlobReferences becomes an association list; Go map iteration order
is unspecified, the embedding fixes the list order. -/
structure ImageStreamLayers where
  Images : List (String × ImageBlobReferences)
deriving DecidableEq

/-- library-go reference.DockerImageReference: the parsed form of a pull
reference. -/
structure DockerImageReference where
  Registry : String
  Namespace : String
  Name : String
  Tag : String
  ID : String
deriving DecidableEq

/-- Modelled from the spec: the String() rendering of a parsed reference
(library-go pkg/image/reference, an external collaborator): the
registry, namespace and name joined by slashes, followed by the `:tag`
and `@id` components when present. -/
def refString (r : DockerImageReference) : String :=
  let n1 := if r.Namespace = "" then r.Name else r.Namespace ++ "/" ++ r.Name
  let n2 := if r.Tag = "" then n1 else n1 ++ ":" ++ r.Tag
  let n3 := if r.ID = "" then n2 else n2 ++ "@" ++ r.ID
  if r.Registry = "" then n3 else r.Registry ++ "/" ++ n3

/-! ## The environment: oracles for control-plane calls and parsers -/

/-- Outcome of imageClient.Get (a control-plane read, external): the Go
code distinguishes success, kerrors.IsNotFound, and any other error. -/
inductive ImageGetResult where
  | ok (image : Image)
  | notFound
  | otherError
deriving DecidableEq

/-- Oracles for the external collaborators of imagestream.go within one
repository-scoped request.  `streamGet` and `layersGet` are the results
of the per-request cached accessor (memoized, hence a single value for
the whole request); `imageGet` is the image getter; `parseRef` is
reference.Parse; `parseDigest` is digest.Parse. -/
structure Env where
  streamGet : Except RError ImageStream
  layersGet : Except RError ImageStreamLayers
  imageGet : String → ImageGetResult
  parseRef : String → Option DockerImageReference
  parseDigest : String → Option String

/-- The imageStream struct of imagestream.go: its identity plus the
oracles of the request.  The Go field `namespace` is spelled `nspace`
because `namespace` is a Lean keyword. -/
structure imageStream where
  nspace : String
  name : String
  env : Env

/-- imageStream.Reference (line 95): "namespace/name". -/
def imageStream.Reference (is : imageStream) : String :=
  is.nspace ++ "/" ++ is.name

/-- convertImageStreamGetterError (lines 541-552): remap the accessor's
classification into the ImageStream codes, defaulting to Unknown. -/
def convertImageStreamGetterError (err : RError) (msg : String) : RError :=
  let code :=
    if err.code = ErrImageStreamGetterNotFoundCode then ErrImageStreamNotFoundCode
    else if err.code = ErrImageStreamGetterForbiddenCode then ErrImageStreamForbiddenCode
    else ErrImageStreamUnknownErrorCode
  { code := code, message := msg }

/-- imageStream.getImage (lines 100-119): fetch the Image with digest
`dgst`, classifying NotFound and other failures. -/
def imageStream.getImage (is : imageStream) (dgst : String) : Except RError Image :=
  match is.env.imageGet dgst with
  | .notFound =>
    .error { code := ErrImageStreamImageNotFoundCode,
             message := "getImage: unable to find image digest " ++ dgst ++ " in " ++ is.name }
  | .otherError =>
    .error { code := ErrImageStreamUnknownErrorCode,
             message := "getImage: unable to get image digest " ++ dgst ++ " in " ++ is.name }
  | .ok image => .ok image

/-- Failure modes of util.ResolveImageID: the digest has no history
entry (a kerrors NotFound), or several conflicting entries match (a
kerrors Conflict, possible in Go through digest-prefix matching). -/
inductive ResolveIDErr where
  | notFound
  | ambiguous
deriving DecidableEq

/-- Modelled from the spec: util.ResolveImageID
(pkg/origin-common/util, not under src/) looks the digest up in the
cached stream's tag history and returns its TagEvent; an absent digest
is an error, and an ambiguous one (several conflicting matches, which
whole-digest lookup cannot produce) would be a Conflict, never a silent
pick.  The Go loop keeps the last matching event. -/
def resolveImageIDInStream (stream : ImageStream) (dgst : String) : Except ResolveIDErr TagEvent :=
  let matching := stream.Status.Tags.foldl
    (fun acc h => acc ++ h.Items.filter (fun e => e.Image == dgst)) []
  match matching.getLast? with
  | none => .error .notFound
  | some e => .ok e

/-- imageStream.ResolveImageID (lines 123-146): latest TagEvent for the
digest; a NotFound from the resolver becomes ImageNotFound, anything
else Unknown. -/
def imageStream.ResolveImageID (is : imageStream) (dgst : String) : Except RError TagEvent :=
  match is.env.streamGet with
  | .error rErr =>
    .error (convertImageStreamGetterError rErr
      ("ResolveImageID: failed to get image stream " ++ is.Reference))
  | .ok stream =>
    match resolveImageIDInStream stream dgst with
    | .error e =>
      let code := match e with
        | .notFound => ErrImageStreamImageNotFoundCode
        | .ambiguous => ErrImageStreamUnknownErrorCode
      .error { code := code,
               message := "ResolveImageID: unable to resolve ImageID " ++ dgst
                 ++ " in image stream " ++ is.Reference }
    | .ok tagEvent => .ok tagEvent

/-- imageStream.getStoredImageOfImageStream (lines 159-171): resolve the
tag event, then fetch the image. -/
def imageStream.getStoredImageOfImageStream (is : imageStream) (dgst : String) :
    Except RError (Image × TagEvent) :=
  match is.ResolveImageID dgst with
  | .error err => .error err
  | .ok tagEvent =>
    match is.getImage dgst with
    | .error err => .error err
    | .ok image => .ok (image, tagEvent)

/-- imageStream.getImageOfImageStream (lines 173-184): like the stored
variant, but the returned copy's DockerImageReference is overwritten
with the TagEvent's recorded reference. -/
def imageStream.getImageOfImageStream (is : imageStream) (dgst : String) :
    Except RError Image :=
  match is.getStoredImageOfImageStream dgst with
  | .error err => .error err
  | .ok (image, tagEvent) =>
    .ok { image with DockerImageReference := tagEvent.DockerImageReference }

/-- The parent search of resolveUpstreamRef (lines 243-256): the first
layers entry whose member manifests contain the digest; the empty
string is the Go sentinel for "no parent found". -/
def findParent (images : List (String × ImageBlobReferences)) (dgst : String) : String :=
  match images with
  | [] => ""
  | (image, ibr) :: rest =>
    if dgst ∈ ibr.Manifests then image else findParent rest dgst

/-- imageStream.resolveUpstreamRef (lines 233-287): find the manifest
list that owns the digest, resolve the parent's tag event, parse its
reference, strip the tag and pin the sub-manifest digest as ID. -/
def imageStream.resolveUpstreamRef (is : imageStream) (dgst : String) :
    Except RError DockerImageReference :=
  match is.env.layersGet with
  | .error _ =>
    .error { code := ErrImageStreamUnknownErrorCode,
             message := "resolveUpstreamRef: failed to get layers for image stream "
               ++ is.Reference }
  | .ok layers =>
    let parent := findParent layers.Images dgst
    if parent = "" then
      .error { code := ErrImageStreamImageNotFoundCode,
               message := "resolveUpstreamRef: unable to find parent for image " ++ dgst
                 ++ " in image stream " ++ is.Reference }
    else
      match is.ResolveImageID parent with
      | .error _ =>
        .error { code := ErrImageStreamUnknownErrorCode,
                 message := "resolveUpstreamRef: unable to get parent event " ++ parent
                   ++ " in image stream " ++ is.Reference }
      | .ok parentTagEvent =>
        match is.env.parseRef parentTagEvent.DockerImageReference with
        | none =>
          .error { code := ErrImageStreamUnknownErrorCode,
                   message := "resolveUpstreamRef: unable to parse parent image reference "
                     ++ parentTagEvent.DockerImageReference ++ " in image stream "
                     ++ is.Reference }
        | some ref => .ok { ref with Tag := "", ID := dgst }

/-- imageStream.GetImageOfImageStream (lines 201-222): try direct
resolution first; on failure fall back to parent-manifest resolution and
rewrite the copy's reference to the rendered upstream reference. -/
def imageStream.GetImageOfImageStream (is : imageStream) (dgst : String) :
    Except RError Image :=
  match is.getImageOfImageStream dgst with
  | .ok isImage => .ok isImage
  | .error _ =>
    match is.resolveUpstreamRef dgst with
    | .error err => .error err
    | .ok ref =>
      match is.getImage dgst with
      | .error err => .error err
      | .ok image => .ok { image with DockerImageReference := refString ref }

/-! ## TagIsInsecure (lines 303-327) -/

/-- The stream-wide insecure-repository annotation key
(imageapiv1.InsecureRepositoryAnnotation, an external constant of
openshift/api). -/
def InsecureRepositoryAnnotationKey : String := "openshift.io/image.insecureRepository"

/-- Lookup in the Go Annotations string map: a missing key yields the
empty string, as in Go. -/
def annGet (anns : List (String × String)) (key : String) : String :=
  match anns.find? (fun p => p.1 == key) with
  | some p => p.2
  | none => ""

/-- Modelled from the spec: util.LatestImageTagEvent
(pkg/origin-common/util, not under src/) reverse-resolves the tag name
from the digest's latest tag-history event: among all events whose
Image is the digest, the one with the greatest Created wins (first
found wins ties), yielding its tag name; ("", none) when no event
matches. -/
def LatestImageTagEvent (stream : ImageStream) (dgst : String) : String × Option TagEvent :=
  stream.Status.Tags.foldl
    (fun acc history =>
      history.Items.foldl
        (fun acc2 event =>
          if event.Image == dgst &&
              (match acc2.2 with
               | none => true
               | some latest => decide (latest.Created < event.Created)) then
            (history.Tag, some event)
          else acc2)
        acc)
    ("", none)

/-- imageStream.TagIsInsecure (lines 303-327): true when the stream's
insecure annotation is "true"; otherwise the named tag's import-policy
flag, reverse-resolving the tag from the digest when no tag was given.
Go's `len(tag) == 0` tests are written as equality with "". -/
def imageStream.TagIsInsecure (is : imageStream) (tag : String) (dgst : String) :
    Except RError Bool :=
  match is.env.streamGet with
  | .error err =>
    .error (convertImageStreamGetterError err
      ("TagIsInsecure: failed to get image stream " ++ is.Reference))
  | .ok stream =>
    if annGet stream.Annotations InsecureRepositoryAnnotationKey = "true" then
      .ok true
    else
      let tag1 := if tag = "" then (LatestImageTagEvent stream dgst).1 else tag
      if tag1 ≠ "" then
        match stream.Spec.Tags.find? (fun t => t.Name == tag1) with
        | some t => .ok t.ImportPolicy.Insecure
        | none => .ok false
      else
        .ok false

/-! ## Tags (lines 381-406) -/

/-- One iteration of the Tags loop (lines 389-403): skip a tag whose
history is empty or whose first item's image fails to parse as a
digest, otherwise record tag -> digest.  The Go map is embedded as a
function from tag name to optional digest. -/
def tagsStep (is : imageStream) (m : String → Option String) (history : NamedTagEventList) :
    String → Option String :=
  match history.Items with
  | [] => m
  | item :: _ =>
    match is.env.parseDigest item.Image with
    | none => m
    | some dgst => fun x => if x = history.Tag then some dgst else m x

/-- imageStream.Tags (lines 381-406): the map from tag name to the
digest parsed from the first (most recent) history item. -/
def imageStream.Tags (is : imageStream) : Except RError (String → Option String) :=
  match is.env.streamGet with
  | .error err =>
    .error (convertImageStreamGetterError err
      ("Tags: failed to get image stream " ++ is.Reference))
  | .ok stream =>
    .ok (stream.Status.Tags.foldl (tagsStep is) (fun _ => none))

/-! ## CreateImageStreamMapping (lines 408-509) -/

/-- The Details field of a k8s Status (apimachinery, external): the kind
and name of the resource the failure is about. -/
structure StatusDetails where
  Kind : String
  Name : String
deriving DecidableEq

/-- A k8s StatusError as inspected by CreateImageStreamMapping:
whether kerrors.IsNotFound holds, the HTTP code, and the optional
details. -/
structure KStatus where
  reasonNotFound : Bool
  Code : Nat
  Details : Option StatusDetails
deriving DecidableEq

/-- Failure of an ImageStreamMappings Create call, classified by the
checks of the Go code in their order: quota exceeded
(quotautil.IsErrorQuotaExceeded), an error that is not a
kerrors.StatusError, or a StatusError with its status. -/
inductive MappingCreateErr where
  | quotaExceeded
  | nonStatusError
  | statusError (st : KStatus)
deriving DecidableEq

/-- Outcome of the auto-provisioning ImageStreams Create call,
classified by the predicates the Go switch applies. -/
inductive StreamCreateResult where
  | ok
  | alreadyExists
  | conflict
  | forbidden
  | unauthorized
  | quotaExceeded
  | otherError
deriving DecidableEq

/-- Oracle results for one CreateImageStreamMapping execution: the first
mapping-create attempt, the provisioning attempt, and the retry (each
consulted only if the control flow reaches it). -/
structure CreateEnv where
  create1 : Option MappingCreateErr
  provision : StreamCreateResult
  create2 : Option MappingCreateErr
deriving DecidableEq

/-- Observable side-effecting calls made by CreateImageStreamMapping, in
order: mapping creation, stream auto-provisioning, and the cache seed
(imageStreamGetter.cacheImageStream). -/
inductive RegistryCall where
  | mappingCreate
  | streamCreate
  | cacheSeed (stream : ImageStream)
deriving DecidableEq

/-- Modelled from the spec: ASCII lowercasing of a character, as done by
strings.ToLower (Go standard library, external) on ASCII kind names. -/
def charLower (c : Char) : Char :=
  if 65 ≤ c.toNat ∧ c.toNat ≤ 90 then Char.ofNat (c.toNat + 32) else c

/-- Modelled from the spec: strings.ToLower (Go standard library,
external), restricted to per-character ASCII lowercasing. -/
def strToLower (s : String) : String :=
  String.mk (s.data.map charLower)

/-- The namespace-denial test of lines 445-451: a NotFound status whose
details kind lowercases to "namespaces".  Go reads status.Details.Kind
without a nil check (a nil Details would panic there); the model reads
the kind as "" in that case. -/
def nsDenied (st : KStatus) : Bool :=
  st.reasonNotFound &&
    (match st.Details with
     | some d => strToLower d.Kind == "namespaces"
     | none => false)

/-- The target-stream-not-found test of lines 453-462, in positive form:
details present with kind "imagestreammappings", HTTP code 404, and the
details name equal to the stream name.  Go writes its negation as
`!isValidKind || status.Code != 404 || status.Details.Name != is.name`
(the last access safe by short-circuit). -/
def streamNotFoundTarget (is : imageStream) (st : KStatus) : Bool :=
  let isValidKind := match st.Details with
    | some d => d.Kind == "imagestreammappings"
    | none => false
  isValidKind && st.Code == 404 &&
    (match st.Details with
     | some d => d.Name == is.name
     | none => false)

/-- The empty ImageStream auto-provisioned at lines 464-465: only the
name is set (the object returned by the Create call is discarded; this
local object is what gets seeded into the cache). -/
def emptyStreamNamed (name : String) : ImageStream :=
  { Name := name, Annotations := [], Spec := { Tags := [] }, Status := { Tags := [] } }

/-- imageStream.CreateImageStreamMapping (lines 408-509), returning the
resulting error (none on success) together with the trace of
control-plane calls and cache seeds it performed, in order. -/
def imageStream.CreateImageStreamMapping (is : imageStream) (cenv : CreateEnv) :
    Option RError × List RegistryCall :=
  let ref := is.Reference
  match cenv.create1 with
  | none => (none, [RegistryCall.mappingCreate])
  | some .quotaExceeded =>
    (some { code := ErrImageStreamForbiddenCode,
            message := "CreateImageStreamMapping: quota exceeded during creation of "
              ++ ref ++ " ImageStreamMapping" },
     [RegistryCall.mappingCreate])
  | some .nonStatusError =>
    (some { code := ErrImageStreamUnknownErrorCode,
            message := "CreateImageStreamMapping: error creating " ++ ref
              ++ " ImageStreamMapping" },
     [RegistryCall.mappingCreate])
  | some (.statusError st) =>
    if nsDenied st then
      (some { code := ErrImageStreamForbiddenCode,
              message := "CreateImageStreamMapping: error creating " ++ ref
                ++ " ImageStreamMapping" },
       [RegistryCall.mappingCreate])
    else if !(streamNotFoundTarget is st) then
      (some { code := ErrImageStreamUnknownErrorCode,
              message := "CreateImageStreamMapping: error creation of " ++ ref
                ++ " ImageStreamMapping" },
       [RegistryCall.mappingCreate])
    else
      let stream := emptyStreamNamed is.name
      match cenv.provision with
      | .forbidden | .unauthorized | .quotaExceeded =>
        (some { code := ErrImageStreamForbiddenCode,
                message := "CreateImageStreamMapping: denied creating ImageStream " ++ ref },
         [RegistryCall.mappingCreate, RegistryCall.streamCreate])
      | .otherError =>
        (some { code := ErrImageStreamUnknownErrorCode,
                message := "CreateImageStreamMapping: error auto provisioning ImageStream "
                  ++ ref },
         [RegistryCall.mappingCreate, RegistryCall.streamCreate])
      | .ok | .alreadyExists | .conflict =>
        let result := match cenv.create2 with
          | none => none
          | some .quotaExceeded =>
            some { code := ErrImageStreamForbiddenCode,
                   message := "CreateImageStreamMapping: quota exceeded during creation of "
                     ++ ref ++ " ImageStreamMapping second time" }
          | some _ =>
            some { code := ErrImageStreamUnknownErrorCode,
                   message := "CreateImageStreamMapping: error creating " ++ ref
                     ++ " ImageStreamMapping second time" }
        (result,
         [RegistryCall.mappingCreate, RegistryCall.streamCreate,
          RegistryCall.cacheSeed stream, RegistryCall.mappingCreate])

/-! ## Sample request environments used by the closed witnesses -/

def digestA : String := "sha256:a1"

def digestSub : String := "sha256:s1"

def digestParent : String := "sha256:p1"

def eventA : TagEvent :=
  { Created := 5,
    DockerImageReference := "registry.example.com/team/app:v1",
    Image := digestA }

def storedImageA : Image :=
  { Name := digestA,
    DockerImageReference := "unset",
    DockerImageManifestMediaType := "application/vnd.docker.distribution.manifest.v2+json",
    DockerImageLayers := [digestSub],
    DockerImageMetadata := "meta" }

def streamA : ImageStream :=
  { Name := "app",
    Annotations := [],
    Spec := { Tags := [] },
    Status := { Tags := [{ Tag := "v1", Items := [eventA] }] } }

def envA : Env :=
  { streamGet := .ok streamA,
    layersGet := .ok { Images := [] },
    imageGet := fun d => if d = digestA then ImageGetResult.ok storedImageA else ImageGetResult.notFound,
    parseRef := fun _ => none,
    parseDigest := fun s => some s }

def isA : imageStream := { nspace := "ns", name := "app", env := envA }

def streamB : ImageStream :=
  { Name := "app", Annotations := [], Spec := { Tags := [] }, Status := { Tags := [] } }

def envB : Env :=
  { streamGet := .ok streamB,
    layersGet := .ok { Images := [] },
    imageGet := fun _ => ImageGetResult.notFound,
    parseRef := fun _ => none,
    parseDigest := fun _ => none }

def isB : imageStream := { nspace := "ns", name := "app", env := envB }

def parentEvent : TagEvent :=
  { Created := 7,
    DockerImageReference := "upstream.example.com/lib/base:big",
    Image := digestParent }

def streamC : ImageStream :=
  { Name := "app",
    Annotations := [],
    Spec := { Tags := [] },
    Status := { Tags := [{ Tag := "big", Items := [parentEvent] }] } }

def layersC : ImageStreamLayers :=
  { Images := [(digestParent, { Manifests := [digestSub] })] }

def parsedParentRef : DockerImageReference :=
  { Registry := "upstream.example.com", Namespace := "lib", Name := "base",
    Tag := "big", ID := "" }

def subImage : Image :=
  { Name := digestSub,
    DockerImageReference := "unset",
    DockerImageManifestMediaType := "mt",
    DockerImageLayers := [],
    DockerImageMetadata := "m" }

def envC : Env :=
  { streamGet := .ok streamC,
    layersGet := .ok layersC,
    imageGet := fun d => if d = digestSub then ImageGetResult.ok subImage else ImageGetResult.notFound,
    parseRef := fun s => if s = parentEvent.DockerImageReference then some parsedParentRef else none,
    parseDigest := fun _ => none }

def isC : imageStream := { nspace := "ns", name := "app", env := envC }

def noTag : String := ""

def insecureTag : TagReference := { Name := "v1", ImportPolicy := { Insecure := true } }

def streamD : ImageStream :=
  { Name := "app",
    Annotations := [],
    Spec := { Tags := [insecureTag] },
    Status := { Tags := [{ Tag := "v1", Items := [eventA] }] } }

def envD : Env :=
  { streamGet := .ok streamD,
    layersGet := .ok { Images := [] },
    imageGet := fun _ => ImageGetResult.notFound,
    parseRef := fun _ => none,
    parseDigest := fun _ => none }

def isD : imageStream := { nspace := "ns", name := "app", env := envD }

def historyV1 : NamedTagEventList := { Tag := "v1", Items := [eventA] }

def unusedEnv : Env :=
  { streamGet := .error { code := ErrImageStreamUnknownErrorCode, message := "unused" },
    layersGet := .error { code := ErrImageStreamUnknownErrorCode, message := "unused" },
    imageGet := fun _ => ImageGetResult.notFound,
    parseRef := fun _ => none,
    parseDigest := fun _ => none }

def mappingIS : imageStream := { nspace := "ns", name := "app", env := unusedEnv }

def targetNotFoundStatus : KStatus :=
  { reasonNotFound := true, Code := 404,
    Details := some { Kind := "imagestreammappings", Name := "app" } }

def nsStatus : KStatus :=
  { reasonNotFound := true, Code := 404,
    Details := some { Kind := "namespaces", Name := "ns" } }

def quotaCenv : CreateEnv :=
  { create1 := some MappingCreateErr.quotaExceeded,
    provision := StreamCreateResult.ok, create2 := none }

def nsCenv : CreateEnv :=
  { create1 := some (MappingCreateErr.statusError nsStatus),
    provision := StreamCreateResult.ok, create2 := none }

def nonStatusCenv : CreateEnv :=
  { create1 := some MappingCreateErr.nonStatusError,
    provision := StreamCreateResult.ok, create2 := none }

def retryCenv : CreateEnv :=
  { create1 := some (MappingCreateErr.statusError targetNotFoundStatus),
    provision := StreamCreateResult.ok, create2 := none }

/-! ## Claims C1, C8, C9: digest resolution and its frame -/

/-- C1: for every digest with a tag-history entry (ResolveImageID
succeeds with TagEvent e) whose image fetch succeeds,
GetImageOfImageStream succeeds and returns the stored image with only
its DockerImageReference replaced by e's recorded reference. -/
theorem C1_direct_resolution (is : imageStream) (dgst : String) (e : TagEvent) (image : Image)
    (hres : is.ResolveImageID dgst = .ok e)
    (himg : is.env.imageGet dgst = ImageGetResult.ok image) :
    is.GetImageOfImageStream dgst =
      .ok { image with DockerImageReference := e.DockerImageReference } := by
  simp [imageStream.GetImageOfImageStream, imageStream.getImageOfImageStream,
    imageStream.getStoredImageOfImageStream, imageStream.getImage, hres, himg]

/-- Closed instance of C1 at a concrete request environment. -/
theorem C1_direct_resolution_witness :
    isA.ResolveImageID digestA = Except.ok eventA ∧
    isA.env.imageGet digestA = ImageGetResult.ok storedImageA ∧
    isA.GetImageOfImageStream digestA =
      Except.ok { storedImageA with DockerImageReference := eventA.DockerImageReference } :=
  ⟨rfl, rfl, C1_direct_resolution isA digestA eventA storedImageA rfl rfl⟩

/-- C8: when direct resolution fails and the parent-manifest fallback
also fails, GetImageOfImageStream returns exactly the fallback's error
(code and message), never the direct error and never a merge. -/
theorem C8_parent_error_surfaced (is : imageStream) (dgst : String) (e1 e2 : RError)
    (h1 : is.getImageOfImageStream dgst = .error e1)
    (h2 : is.resolveUpstreamRef dgst = .error e2) :
    is.GetImageOfImageStream dgst = .error e2 := by
  simp [imageStream.GetImageOfImageStream, h1, h2]

/-- Closed instance of C8: both paths fail and the surfaced error is the
parent-resolution one. -/
theorem C8_parent_error_surfaced_witness :
    isB.GetImageOfImageStream digestA = Except.error
      { code := ErrImageStreamImageNotFoundCode,
        message := "resolveUpstreamRef: unable to find parent for image " ++ digestA
          ++ " in image stream " ++ isB.Reference } :=
  C8_parent_error_surfaced isB digestA
    { code := ErrImageStreamImageNotFoundCode,
      message := "ResolveImageID: unable to resolve ImageID " ++ digestA
        ++ " in image stream " ++ isB.Reference }
    { code := ErrImageStreamImageNotFoundCode,
      message := "resolveUpstreamRef: unable to find parent for image " ++ digestA
        ++ " in image stream " ++ isB.Reference }
    rfl rfl

/-- C9: neither resolution path mutates the stored image record: a
successful result agrees with the image returned by the image getter on
every field other than DockerImageReference (the rewrite happens on a
fresh copy only). -/
theorem C9_no_mutation (is : imageStream) (dgst : String) (img image : Image)
    (himg : is.env.imageGet dgst = ImageGetResult.ok image) :
    (is.getImageOfImageStream dgst = .ok img →
      img = { image with DockerImageReference := img.DockerImageReference }) ∧
    (is.GetImageOfImageStream dgst = .ok img →
      img = { image with DockerImageReference := img.DockerImageReference }) := by
  have hgi : is.getImage dgst = .ok image := by
    simp [imageStream.getImage, himg]
  have hA : is.getImageOfImageStream dgst = .ok img →
      img = { image with DockerImageReference := img.DockerImageReference } := by
    intro h
    cases hr : is.ResolveImageID dgst with
    | error err =>
      simp [imageStream.getImageOfImageStream, imageStream.getStoredImageOfImageStream,
        hr] at h
    | ok e =>
      simp [imageStream.getImageOfImageStream, imageStream.getStoredImageOfImageStream,
        hr, hgi] at h
      rw [← h]
  refine ⟨hA, ?_⟩
  intro h
  cases hd : is.getImageOfImageStream dgst with
  | ok i =>
    have hi : is.GetImageOfImageStream dgst = .ok i := by
      simp [imageStream.GetImageOfImageStream, hd]
    rw [hi] at h
    injection h with h2
    subst h2
    exact hA hd
  | error e1 =>
    cases hu : is.resolveUpstreamRef dgst with
    | error e2 =>
      simp [imageStream.GetImageOfImageStream, hd, hu] at h
    | ok ref =>
      simp [imageStream.GetImageOfImageStream, hd, hu, hgi] at h
      rw [← h]

/-- Closed instance of C9 on the direct-resolution path. -/
theorem C9_no_mutation_witness :
    isA.env.imageGet digestA = ImageGetResult.ok storedImageA ∧
    ({ storedImageA with DockerImageReference := eventA.DockerImageReference } =
      { storedImageA with
          DockerImageReference :=
            ({ storedImageA with
                 DockerImageReference := eventA.DockerImageReference } : Image).DockerImageReference }) :=
  ⟨rfl,
   (C9_no_mutation isA digestA
       { storedImageA with DockerImageReference := eventA.DockerImageReference }
       storedImageA rfl).1 rfl⟩

/-! ## Claims C2, C3: parent-manifest resolution -/

/-- A digest matched by no tag-history event makes the history lookup
fail with NotFound. -/
theorem matchingEvents_nil (stream : ImageStream) (dgst : String)
    (h : ∀ hl ∈ stream.Status.Tags, ∀ e ∈ hl.Items, e.Image ≠ dgst) :
    resolveImageIDInStream stream dgst = .error .notFound := by
  have key : ∀ (l : List NamedTagEventList) (acc : List TagEvent),
      (∀ hl ∈ l, ∀ e ∈ hl.Items, e.Image ≠ dgst) →
      l.foldl (fun acc2 h2 => acc2 ++ h2.Items.filter (fun e => e.Image == dgst)) acc = acc := by
    intro l
    induction l with
    | nil => intro acc _; rfl
    | cons hd tl ih =>
      intro acc hall
      have hhd : hd.Items.filter (fun e => e.Image == dgst) = [] := by
        rw [List.filter_eq_nil_iff]
        intro e he
        simp [hall hd (by simp) e he]
      simp only [List.foldl_cons, hhd, List.append_nil]
      exact ih acc (fun hl hm e he => hall hl (List.mem_cons_of_mem _ hm) e he)
  simp only [resolveImageIDInStream]
  rw [key _ [] h]
  rfl

/-- A digest contained in no layers entry makes the parent search end on
the empty-string sentinel. -/
theorem findParent_eq_empty (images : List (String × ImageBlobReferences)) (dgst : String)
    (h : ∀ p ∈ images, dgst ∉ p.2.Manifests) : findParent images dgst = "" := by
  induction images with
  | nil => rfl
  | cons p rest ih =>
    obtain ⟨image, ibr⟩ := p
    have h1 : dgst ∉ ibr.Manifests := h (image, ibr) (by simp)
    simp only [findParent]
    rw [if_neg h1]
    exact ih (fun q hq => h q (List.mem_cons_of_mem _ hq))

/-- C2: a digest absent from tag history but found (by the layers walk)
as a member of manifest list `parent`, whose tag event resolves and
whose reference parses as `r`, resolves to the stored image with a
reference keeping r's registry and repository, an empty tag, and the
sub-manifest digest as image ID. -/
theorem C2_submanifest_resolution (is : imageStream) (stream : ImageStream)
    (layers : ImageStreamLayers) (dgst parent : String) (pe : TagEvent)
    (r : DockerImageReference) (image : Image)
    (hstream : is.env.streamGet = .ok stream)
    (habsent : ∀ hl ∈ stream.Status.Tags, ∀ e ∈ hl.Items, e.Image ≠ dgst)
    (hlayers : is.env.layersGet = .ok layers)
    (hparent : findParent layers.Images dgst = parent)
    (hpne : parent ≠ "")
    (hpe : is.ResolveImageID parent = .ok pe)
    (hr : is.env.parseRef pe.DockerImageReference = some r)
    (himg : is.env.imageGet dgst = ImageGetResult.ok image) :
    ∃ r2 : DockerImageReference,
      is.GetImageOfImageStream dgst =
        .ok { image with DockerImageReference := refString r2 } ∧
      r2.Registry = r.Registry ∧ r2.Namespace = r.Namespace ∧ r2.Name = r.Name ∧
      r2.Tag = "" ∧ r2.ID = dgst := by
  have hnf := matchingEvents_nil stream dgst habsent
  have hdirect : is.ResolveImageID dgst = .error
      { code := ErrImageStreamImageNotFoundCode,
        message := "ResolveImageID: unable to resolve ImageID " ++ dgst
          ++ " in image stream " ++ is.Reference } := by
    simp [imageStream.ResolveImageID, hstream, hnf]
  have hup : is.resolveUpstreamRef dgst = .ok { r with Tag := "", ID := dgst } := by
    simp [imageStream.resolveUpstreamRef, hlayers, hparent, hpne, hpe, hr]
  refine ⟨{ r with Tag := "", ID := dgst }, ?_, rfl, rfl, rfl, rfl, rfl⟩
  simp [imageStream.GetImageOfImageStream, imageStream.getImageOfImageStream,
    imageStream.getStoredImageOfImageStream, hdirect, hup, imageStream.getImage, himg]

/-- Closed instance of C2 at a concrete sub-manifest request. -/
theorem C2_submanifest_resolution_witness :
    ∃ r2 : DockerImageReference,
      isC.GetImageOfImageStream digestSub =
        Except.ok { subImage with DockerImageReference := refString r2 } ∧
      r2.Registry = parsedParentRef.Registry ∧ r2.Namespace = parsedParentRef.Namespace ∧
      r2.Name = parsedParentRef.Name ∧ r2.Tag = "" ∧ r2.ID = digestSub :=
  C2_submanifest_resolution isC streamC layersC digestSub digestParent parentEvent
    parsedParentRef subImage rfl (by decide) rfl rfl (by decide) rfl rfl rfl

/-- C3: a digest absent both from tag history and from every layers
member set fails with the ImageNotFound code. -/
theorem C3_image_not_found (is : imageStream) (stream : ImageStream)
    (layers : ImageStreamLayers) (dgst : String)
    (hstream : is.env.streamGet = .ok stream)
    (habsent : ∀ hl ∈ stream.Status.Tags, ∀ e ∈ hl.Items, e.Image ≠ dgst)
    (hlayers : is.env.layersGet = .ok layers)
    (hnoparent : ∀ p ∈ layers.Images, dgst ∉ p.2.Manifests) :
    ∃ err, is.GetImageOfImageStream dgst = .error err ∧
      err.code = ErrImageStreamImageNotFoundCode := by
  have hnf := matchingEvents_nil stream dgst habsent
  have hdirect : is.ResolveImageID dgst = .error
      { code := ErrImageStreamImageNotFoundCode,
        message := "ResolveImageID: unable to resolve ImageID " ++ dgst
          ++ " in image stream " ++ is.Reference } := by
    simp [imageStream.ResolveImageID, hstream, hnf]
  have hfp : findParent layers.Images dgst = "" := findParent_eq_empty _ _ hnoparent
  have hup : is.resolveUpstreamRef dgst = .error
      { code := ErrImageStreamImageNotFoundCode,
        message := "resolveUpstreamRef: unable to find parent for image " ++ dgst
          ++ " in image stream " ++ is.Reference } := by
    simp [imageStream.resolveUpstreamRef, hlayers, hfp]
  refine ⟨{ code := ErrImageStreamImageNotFoundCode,
            message := "resolveUpstreamRef: unable to find parent for image " ++ dgst
              ++ " in image stream " ++ is.Reference }, ?_, rfl⟩
  simp [imageStream.GetImageOfImageStream, imageStream.getImageOfImageStream,
    imageStream.getStoredImageOfImageStream, hdirect, hup]

/-- Closed instance of C3: an unknown digest against an empty stream. -/
theorem C3_image_not_found_witness :
    ∃ err, isB.GetImageOfImageStream digestA = Except.error err ∧
      err.code = ErrImageStreamImageNotFoundCode :=
  C3_image_not_found isB streamB { Images := [] } digestA rfl (by decide) rfl (by decide)

/-! ## Claim C4: TagIsInsecure -/

/-- C4: with the stream fetched, (a) an insecure annotation equal to
"true" makes TagIsInsecure true for every tag and digest; (b) with the
annotation unset and a non-empty tag found among the spec tags, the
result is that tag's import-policy flag; (c) a digest-only query equals
the query for the tag reverse-resolved from the digest's latest
tag-history event. -/
theorem C4_tag_is_insecure (is : imageStream) (stream : ImageStream)
    (hstream : is.env.streamGet = .ok stream) :
    (annGet stream.Annotations InsecureRepositoryAnnotationKey = "true" →
      ∀ tag dgst, is.TagIsInsecure tag dgst = .ok true) ∧
    (annGet stream.Annotations InsecureRepositoryAnnotationKey = "" →
      ∀ tag dgst t, tag ≠ "" →
        stream.Spec.Tags.find? (fun tr => tr.Name == tag) = some t →
        is.TagIsInsecure tag dgst = .ok t.ImportPolicy.Insecure) ∧
    (∀ dgst, is.TagIsInsecure noTag dgst =
      is.TagIsInsecure (LatestImageTagEvent stream dgst).1 dgst) := by
  refine ⟨?_, ?_, ?_⟩
  · intro hann tag dgst
    simp [imageStream.TagIsInsecure, hstream, hann]
  · intro hann tag dgst t htag hfind
    simp [imageStream.TagIsInsecure, hstream, hann, htag, hfind]
  · intro dgst
    by_cases hann : annGet stream.Annotations InsecureRepositoryAnnotationKey = "true"
    · simp [imageStream.TagIsInsecure, hstream, hann]
    · by_cases hlat : (LatestImageTagEvent stream dgst).1 = ""
      · simp [imageStream.TagIsInsecure, hstream, hann, hlat, noTag]
      · simp [imageStream.TagIsInsecure, hstream, hann, hlat, noTag]

/-- Closed instance of C4: the named-tag policy lookup and the
digest-only reverse resolution at a concrete stream. -/
theorem C4_tag_is_insecure_witness :
    isD.TagIsInsecure insecureTag.Name digestA = Except.ok insecureTag.ImportPolicy.Insecure ∧
    isD.TagIsInsecure noTag digestA =
      isD.TagIsInsecure (LatestImageTagEvent streamD digestA).1 digestA :=
  ⟨(C4_tag_is_insecure isD streamD rfl).2.1 rfl insecureTag.Name digestA insecureTag
      (by decide) rfl,
   (C4_tag_is_insecure isD streamD rfl).2.2 digestA⟩

/-! ## Claim C10: Tags -/

/-- Folding the Tags loop over histories none of which carries tag `t`
leaves the map unchanged at `t`. -/
theorem tagsFold_apply_of_not_mem (is : imageStream) (hs : List NamedTagEventList)
    (m : String → Option String) (t : String)
    (h : ∀ hl ∈ hs, hl.Tag ≠ t) :
    hs.foldl (tagsStep is) m t = m t := by
  induction hs generalizing m with
  | nil => rfl
  | cons hd tl ih =>
    have hstep : ∀ m2 : String → Option String, tagsStep is m2 hd t = m2 t := by
      intro m2
      have hne : t ≠ hd.Tag := Ne.symm (h hd (by simp))
      cases hI : hd.Items with
      | nil => simp [tagsStep, hI]
      | cons item rest =>
        cases hpd : is.env.parseDigest item.Image with
        | none => simp [tagsStep, hI, hpd]
        | some d => simp [tagsStep, hI, hpd, hne]
    rw [List.foldl_cons, ih _ (fun hl hm => h hl (List.mem_cons_of_mem _ hm)), hstep]

/-- C10: when the stream's status tags carry pairwise distinct names,
Tags succeeds and maps each tag name to the digest parsed from the
first item of its history; an empty history or an unparseable first
item leaves the tag absent from the map instead of failing. -/
theorem C10_tags_first_item (is : imageStream) (stream : ImageStream)
    (hstream : is.env.streamGet = .ok stream)
    (hnodup : stream.Status.Tags.Pairwise (fun a b => a.Tag ≠ b.Tag))
    (hl : NamedTagEventList) (hmem : hl ∈ stream.Status.Tags) :
    ∃ m, is.Tags = .ok m ∧
      m hl.Tag = hl.Items.head?.bind (fun item => is.env.parseDigest item.Image) := by
  obtain ⟨s1, s2, hdecomp⟩ := List.append_of_mem hmem
  refine ⟨stream.Status.Tags.foldl (tagsStep is) (fun _ => none), ?_, ?_⟩
  · simp [imageStream.Tags, hstream]
  · rw [hdecomp] at hnodup
    rw [List.pairwise_append] at hnodup
    obtain ⟨hp1, hp2, hcross⟩ := hnodup
    rw [List.pairwise_cons] at hp2
    obtain ⟨hhl2, _⟩ := hp2
    rw [hdecomp, List.foldl_append, List.foldl_cons]
    rw [tagsFold_apply_of_not_mem is s2 _ hl.Tag (fun q hq => Ne.symm (hhl2 q hq))]
    have hM1 : (s1.foldl (tagsStep is) (fun _ => none)) hl.Tag = none :=
      tagsFold_apply_of_not_mem is s1 _ hl.Tag (fun q hq => hcross q hq hl (by simp))
    cases hI : hl.Items with
    | nil => simp [tagsStep, hI, hM1]
    | cons item rest =>
      cases hpd : is.env.parseDigest item.Image with
      | none => simp [tagsStep, hI, hpd, hM1]
      | some d => simp [tagsStep, hI, hpd]

/-- Closed instance of C10: a single-tag stream whose digest parses. -/
theorem C10_tags_first_item_witness :
    ∃ m, isA.Tags = Except.ok m ∧
      m historyV1.Tag =
        historyV1.Items.head?.bind (fun item => isA.env.parseDigest item.Image) :=
  C10_tags_first_item isA streamA rfl (by simp [streamA])
    historyV1 (by simp [streamA, historyV1])

/-! ## Claims C5, C6, C7: CreateImageStreamMapping -/

/-- C5: quota exhaustion on the very first mapping-creation attempt
returns the Forbidden code with no provisioning call and no second
mapping-creation call (the trace is the single first attempt). -/
theorem C5_quota_first_attempt (is : imageStream) (cenv : CreateEnv)
    (h : cenv.create1 = some MappingCreateErr.quotaExceeded) :
    ∃ err, is.CreateImageStreamMapping cenv = (some err, [RegistryCall.mappingCreate]) ∧
      err.code = ErrImageStreamForbiddenCode := by
  refine ⟨{ code := ErrImageStreamForbiddenCode,
            message := "CreateImageStreamMapping: quota exceeded during creation of "
              ++ is.Reference ++ " ImageStreamMapping" }, ?_, rfl⟩
  simp [imageStream.CreateImageStreamMapping, h]

/-- Closed instance of C5. -/
theorem C5_quota_first_attempt_witness :
    ∃ err, mappingIS.CreateImageStreamMapping quotaCenv =
      (some err, [RegistryCall.mappingCreate]) ∧
      err.code = ErrImageStreamForbiddenCode :=
  C5_quota_first_attempt mappingIS quotaCenv rfl

/-- C6 counterexample: a first-attempt failure that is neither quota nor
target-stream-not-found — a NotFound status for kind "namespaces" —
yields the Forbidden code, not the Unknown code the claim requires. -/
theorem C6_first_attempt_counterexample :
    ∃ e, (mappingIS.CreateImageStreamMapping nsCenv).1 = some e ∧
      e.code = ErrImageStreamForbiddenCode ∧
      e.code ≠ ErrImageStreamUnknownErrorCode := by
  refine ⟨{ code := ErrImageStreamForbiddenCode,
            message := "CreateImageStreamMapping: error creating " ++ mappingIS.Reference
              ++ " ImageStreamMapping" }, by decide, rfl, by decide⟩

/-- C6 as amended: on the first attempt, success is terminal with no
error; quota yields Forbidden; a non-status error yields Unknown; a
status error that is neither the namespace-denial case nor
target-stream-not-found yields Unknown; the namespace-denial case
(NotFound with details kind "namespaces") yields Forbidden; and only
target-stream-not-found proceeds to auto-provisioning. -/
theorem C6_first_attempt_amended (is : imageStream) (cenv : CreateEnv) :
    (cenv.create1 = none →
      is.CreateImageStreamMapping cenv = (none, [RegistryCall.mappingCreate])) ∧
    (cenv.create1 = some MappingCreateErr.quotaExceeded →
      ∃ e, is.CreateImageStreamMapping cenv = (some e, [RegistryCall.mappingCreate]) ∧
        e.code = ErrImageStreamForbiddenCode) ∧
    (cenv.create1 = some MappingCreateErr.nonStatusError →
      ∃ e, is.CreateImageStreamMapping cenv = (some e, [RegistryCall.mappingCreate]) ∧
        e.code = ErrImageStreamUnknownErrorCode) ∧
    (∀ st, cenv.create1 = some (MappingCreateErr.statusError st) →
      (nsDenied st = true →
        ∃ e, is.CreateImageStreamMapping cenv = (some e, [RegistryCall.mappingCreate]) ∧
          e.code = ErrImageStreamForbiddenCode) ∧
      (nsDenied st = false → streamNotFoundTarget is st = false →
        ∃ e, is.CreateImageStreamMapping cenv = (some e, [RegistryCall.mappingCreate]) ∧
          e.code = ErrImageStreamUnknownErrorCode) ∧
      (nsDenied st = false → streamNotFoundTarget is st = true →
        RegistryCall.streamCreate ∈ (is.CreateImageStreamMapping cenv).2)) := by
  refine ⟨?_, ?_, ?_, ?_⟩
  · intro h
    simp [imageStream.CreateImageStreamMapping, h]
  · intro h
    refine ⟨{ code := ErrImageStreamForbiddenCode,
              message := "CreateImageStreamMapping: quota exceeded during creation of "
                ++ is.Reference ++ " ImageStreamMapping" }, ?_, rfl⟩
    simp [imageStream.CreateImageStreamMapping, h]
  · intro h
    refine ⟨{ code := ErrImageStreamUnknownErrorCode,
              message := "CreateImageStreamMapping: error creating " ++ is.Reference
                ++ " ImageStreamMapping" }, ?_, rfl⟩
    simp [imageStream.CreateImageStreamMapping, h]
  · intro st h
    refine ⟨?_, ?_, ?_⟩
    · intro hns
      refine ⟨{ code := ErrImageStreamForbiddenCode,
                message := "CreateImageStreamMapping: error creating " ++ is.Reference
                  ++ " ImageStreamMapping" }, ?_, rfl⟩
      simp [imageStream.CreateImageStreamMapping, h, hns]
    · intro hns ht
      refine ⟨{ code := ErrImageStreamUnknownErrorCode,
                message := "CreateImageStreamMapping: error creation of " ++ is.Reference
                  ++ " ImageStreamMapping" }, ?_, rfl⟩
      simp [imageStream.CreateImageStreamMapping, h, hns, ht]
    · intro hns ht
      cases hp : cenv.provision <;>
        simp [imageStream.CreateImageStreamMapping, h, hns, ht, hp]

/-- Closed instance of the amended C6: a non-status first-attempt error
is terminal with the Unknown code. -/
theorem C6_first_attempt_amended_witness :
    ∃ e, mappingIS.CreateImageStreamMapping nonStatusCenv =
      (some e, [RegistryCall.mappingCreate]) ∧
      e.code = ErrImageStreamUnknownErrorCode :=
  (C6_first_attempt_amended mappingIS nonStatusCenv).2.2.1 rfl

/-- The call trace of CreateImageStreamMapping takes one of exactly
three shapes: first attempt only; first attempt plus failed
provisioning; or first attempt, provisioning, cache seed, and one
retry. -/
theorem createTrace_shapes (is : imageStream) (cenv : CreateEnv) :
    (is.CreateImageStreamMapping cenv).2 = [RegistryCall.mappingCreate] ∨
    (is.CreateImageStreamMapping cenv).2 =
      [RegistryCall.mappingCreate, RegistryCall.streamCreate] ∨
    (is.CreateImageStreamMapping cenv).2 =
      [RegistryCall.mappingCreate, RegistryCall.streamCreate,
       RegistryCall.cacheSeed (emptyStreamNamed is.name), RegistryCall.mappingCreate] := by
  cases hc1 : cenv.create1 with
  | none => left; simp [imageStream.CreateImageStreamMapping, hc1]
  | some e1 =>
    cases e1 with
    | quotaExceeded => left; simp [imageStream.CreateImageStreamMapping, hc1]
    | nonStatusError => left; simp [imageStream.CreateImageStreamMapping, hc1]
    | statusError st =>
      by_cases hns : nsDenied st = true
      · left; simp [imageStream.CreateImageStreamMapping, hc1, hns]
      · by_cases ht : streamNotFoundTarget is st = true
        · cases hp : cenv.provision with
          | ok => right; right; simp [imageStream.CreateImageStreamMapping, hc1, hns, ht, hp]
          | alreadyExists =>
            right; right; simp [imageStream.CreateImageStreamMapping, hc1, hns, ht, hp]
          | conflict =>
            right; right; simp [imageStream.CreateImageStreamMapping, hc1, hns, ht, hp]
          | forbidden =>
            right; left; simp [imageStream.CreateImageStreamMapping, hc1, hns, ht, hp]
          | unauthorized =>
            right; left; simp [imageStream.CreateImageStreamMapping, hc1, hns, ht, hp]
          | quotaExceeded =>
            right; left; simp [imageStream.CreateImageStreamMapping, hc1, hns, ht, hp]
          | otherError =>
            right; left; simp [imageStream.CreateImageStreamMapping, hc1, hns, ht, hp]
        · left; simp [imageStream.CreateImageStreamMapping, hc1, hns, ht]

/-- C7: no execution makes more than one provisioning call or more than
two mapping-creation calls; and whenever provisioning is reached and
succeeds (or hits AlreadyExists/Conflict), the cache is seeded with the
empty created stream object and the mapping creation is retried exactly
once, any retry failure being terminal (quota as Forbidden, everything
else as Unknown). -/
theorem C7_single_retry (is : imageStream) (cenv : CreateEnv) :
    ((is.CreateImageStreamMapping cenv).2.count RegistryCall.streamCreate ≤ 1 ∧
     (is.CreateImageStreamMapping cenv).2.count RegistryCall.mappingCreate ≤ 2) ∧
    (RegistryCall.streamCreate ∈ (is.CreateImageStreamMapping cenv).2 →
      (cenv.provision = StreamCreateResult.ok ∨
       cenv.provision = StreamCreateResult.alreadyExists ∨
       cenv.provision = StreamCreateResult.conflict) →
      ((is.CreateImageStreamMapping cenv).2 =
        [RegistryCall.mappingCreate, RegistryCall.streamCreate,
         RegistryCall.cacheSeed (emptyStreamNamed is.name), RegistryCall.mappingCreate] ∧
       (cenv.create2 = none → (is.CreateImageStreamMapping cenv).1 = none) ∧
       (cenv.create2 = some MappingCreateErr.quotaExceeded →
         ∃ e, (is.CreateImageStreamMapping cenv).1 = some e ∧
           e.code = ErrImageStreamForbiddenCode) ∧
       (∀ e2, cenv.create2 = some e2 → e2 ≠ MappingCreateErr.quotaExceeded →
         ∃ e, (is.CreateImageStreamMapping cenv).1 = some e ∧
           e.code = ErrImageStreamUnknownErrorCode))) := by
  constructor
  · rcases createTrace_shapes is cenv with h | h | h <;> rw [h] <;>
      constructor <;> simp [List.count_cons, List.count_nil]
  · intro hmem hprov
    cases hc1 : cenv.create1 with
    | none => simp [imageStream.CreateImageStreamMapping, hc1] at hmem
    | some e1 =>
      cases e1 with
      | quotaExceeded => simp [imageStream.CreateImageStreamMapping, hc1] at hmem
      | nonStatusError => simp [imageStream.CreateImageStreamMapping, hc1] at hmem
      | statusError st =>
        by_cases hns : nsDenied st = true
        · simp [imageStream.CreateImageStreamMapping, hc1, hns] at hmem
        · by_cases ht : streamNotFoundTarget is st = true
          · refine ⟨?_, ?_, ?_, ?_⟩
            · rcases hprov with hp | hp | hp <;>
                simp [imageStream.CreateImageStreamMapping, hc1, hns, ht, hp]
            · intro h2
              rcases hprov with hp | hp | hp <;>
                simp [imageStream.CreateImageStreamMapping, hc1, hns, ht, hp, h2]
            · intro h2
              refine ⟨{ code := ErrImageStreamForbiddenCode,
                        message := "CreateImageStreamMapping: quota exceeded during creation of "
                          ++ is.Reference ++ " ImageStreamMapping second time" }, ?_, rfl⟩
              rcases hprov with hp | hp | hp <;>
                simp [imageStream.CreateImageStreamMapping, hc1, hns, ht, hp, h2]
            · intro e2 h2 hne
              refine ⟨{ code := ErrImageStreamUnknownErrorCode,
                        message := "CreateImageStreamMapping: error creating " ++ is.Reference
                          ++ " ImageStreamMapping second time" }, ?_, rfl⟩
              cases e2 with
              | quotaExceeded => exact absurd rfl hne
              | nonStatusError =>
                rcases hprov with hp | hp | hp <;>
                  simp [imageStream.CreateImageStreamMapping, hc1, hns, ht, hp, h2]
              | statusError st2 =>
                rcases hprov with hp | hp | hp <;>
                  simp [imageStream.CreateImageStreamMapping, hc1, hns, ht, hp, h2]
          · simp [imageStream.CreateImageStreamMapping, hc1, hns, ht] at hmem

/-- Closed instance of C7: target-stream-not-found, successful
provisioning, successful retry — the full four-call trace with a nil
error. -/
theorem C7_single_retry_witness :
    (mappingIS.CreateImageStreamMapping retryCenv).2 =
      [RegistryCall.mappingCreate, RegistryCall.streamCreate,
       RegistryCall.cacheSeed (emptyStreamNamed mappingIS.name), RegistryCall.mappingCreate] ∧
    (mappingIS.CreateImageStreamMapping retryCenv).1 = none :=
  let h := (C7_single_retry mappingIS retryCenv).2 (by decide) (Or.inl rfl)
  ⟨h.1, h.2.1 rfl⟩
